import Mathlib

/-!
Shallow embedding of the Royal Restaurant ordering backend (src/main.py).

Monetary values are modelled as rationals; Python `None`-able strings as
`Option String`; outbound network calls (PayPal token/order/capture, Telegram
delivery) as explicit oracle parameters describing the provider's response,
so every route handler becomes a pure function from (stored document, request
data, oracle outcomes) to (new stored document, HTTP response).
-/

namespace RoyalRestaurant

/-- Localized string record (`Translatable` pydantic model). -/
structure Translatable where
  fa : String
  en : String
  ar : String
deriving DecidableEq

/-- Catalog product (`Product` pydantic model). -/
structure Product where
  id : String
  name : Translatable
  description : Translatable
  price : ℚ
  discount : ℤ
  category : String
  image : String
deriving DecidableEq

/-- Catalog category (`Category` pydantic model). -/
structure Category where
  id : String
  name : Translatable
deriving DecidableEq

/-- Cart line submitted by the customer (`CartItem` pydantic model). -/
structure CartItem where
  id : String
  quantity : ℤ
deriving DecidableEq

/-- Customer form data (`Customer` pydantic model). -/
structure Customer where
  firstName : String
  lastName : String
  phone : String
  address : String
  location : Option String := none
  notes : Option String := none
  contactMethod : String := "whatsapp"
  deliveryType : String := "delivery"
deriving DecidableEq

/-- Order-creation request body (`OrderRequest` pydantic model). -/
structure OrderRequest where
  customer : Customer
  items : List CartItem
deriving DecidableEq

/-- Priced line item embedded into a persisted order (the dict built in
`create_order`'s pricing loop). -/
structure OrderItem where
  id : String
  name : Translatable
  price : ℚ
  quantity : ℤ
deriving DecidableEq

/-- Persisted order record (the `new_order` dict in `create_order`). -/
structure Order where
  id : String
  date : String
  customer : Customer
  items : List OrderItem
  total_omr : ℚ
  total_usd : ℚ
  status : String
  paid : Bool
  paypal_order_id : String
deriving DecidableEq

/-- The whole persisted store document: `{products, categories, orders}`. -/
structure StoreData where
  products : List Product
  categories : List Category
  orders : List Order
deriving DecidableEq

/-- Fixed OMR→USD conversion rate (`OMR_TO_USD_RATE = 2.6`). -/
def OMR_TO_USD_RATE : ℚ := 26 / 10

/-! ### Pricing (the server-side total computation in `create_order`) -/

/-- `next((p for p in data["products"] if p["id"] == item.id), None)`. -/
def findProduct (products : List Product) (pid : String) : Option Product :=
  products.find? (fun p => p.id == pid)

/-- `final_price = prod["price"] * (1 - prod["discount"] / 100)`. -/
def finalPrice (p : Product) : ℚ :=
  p.price * (1 - (p.discount : ℚ) / 100)

/-- One iteration of the pricing loop in `create_order`: resolve the cart
item against the catalog; on a hit, accumulate the discounted line total and
append the priced line; on a miss, leave the accumulator unchanged. -/
def priceStep (products : List Product) (acc : ℚ × List OrderItem)
    (item : CartItem) : ℚ × List OrderItem :=
  match findProduct products item.id with
  | none => acc
  | some prod =>
      (acc.1 + finalPrice prod * (item.quantity : ℚ),
       acc.2 ++ [{ id := prod.id, name := prod.name, price := finalPrice prod,
                   quantity := item.quantity }])

/-- The full pricing loop: `calculated_total` and `full_items` after the
`for item in order_req.items` loop in `create_order`. -/
def priceCart (products : List Product) (items : List CartItem) :
    ℚ × List OrderItem :=
  items.foldl (priceStep products) (0, [])

/-- The value the claimed formula assigns to one cart line:
`catalog_price × (1 − discount/100) × quantity` for a resolvable id, 0 for an
unresolvable one. -/
def lineTotal (products : List Product) (item : CartItem) : ℚ :=
  match findProduct products item.id with
  | none => 0
  | some p => p.price * (1 - (p.discount : ℚ) / 100) * (item.quantity : ℚ)

/-! ### PayPal gateway client (`PayPalService`) -/

/-- One entry of the `links` array in PayPal's checkout-order response. -/
structure PayPalLink where
  href : String
  rel : String
deriving DecidableEq

/-- The fields of PayPal's checkout-order response JSON that `create_order`
reads: the gateway session id and the `links` array. -/
structure PayPalOrderJson where
  id : String
  links : List PayPalLink
deriving DecidableEq

/-- The configured gateway credentials (`PAYPAL_CLIENT_ID`/`PAYPAL_SECRET`,
each possibly unset). -/
structure PayPalConfig where
  clientId : Option String
  secret : Option String
deriving DecidableEq

/-- Python truthiness test `not x` on an optional string: true for `None`
and for the empty string. -/
def optFalsy : Option String → Bool
  | none => true
  | some s => s == ""

/-- Python `f"...{x}..."` interpolation of an optional string: `None`
renders as the literal text `None`. -/
def pyStrOpt : Option String → String
  | none => "None"
  | some s => s

/-- The headers `create_payment`/`capture_payment` build from the token. -/
structure HttpHeaders where
  contentType : String
  authorization : String
deriving DecidableEq

/-- `{"Content-Type": "application/json", "Authorization": f"Bearer {token}"}`. -/
def authHeaders (token : Option String) : HttpHeaders :=
  { contentType := "application/json",
    authorization := "Bearer " ++ pyStrOpt token }

/-- `PayPalService.get_access_token`: with missing (falsy) credentials it
logs and returns `None` (no exception); otherwise it performs the OAuth
request, whose outcome is the oracle `providerToken` — a provider rejection
(`raise_for_status`) re-raises, success yields the access token. -/
def get_access_token (cfg : PayPalConfig)
    (providerToken : Except Unit String) : Except Unit (Option String) :=
  if optFalsy cfg.clientId || optFalsy cfg.secret then
    Except.ok none
  else
    match providerToken with
    | Except.error e => Except.error e
    | Except.ok tok => Except.ok (some tok)

/-- `PayPalService.create_payment`: fetch a token (propagating any exception),
then POST the checkout order with a `Bearer` header built from the token —
even when the token is `None` — and return the provider's response for those
headers (the oracle `providerOrders`; an error models `raise_for_status`). -/
def create_payment (cfg : PayPalConfig) (providerToken : Except Unit String)
    (providerOrders : HttpHeaders → Except Unit PayPalOrderJson) :
    Except Unit PayPalOrderJson :=
  match get_access_token cfg providerToken with
  | Except.error e => Except.error e
  | Except.ok token => providerOrders (authHeaders token)

/-! ### Order id generation -/

/-- Python `int()` on a rational: truncation toward zero. -/
def pyInt (q : ℚ) : ℤ :=
  if 0 ≤ q then ⌊q⌋ else ⌈q⌉

/-- `order_id = str(int(datetime.now().timestamp() * 1000))`: the decimal
string of the creation time in whole milliseconds. -/
def genOrderId (nowSeconds : ℚ) : String :=
  toString (pyInt (nowSeconds * 1000))

/-! ### Route handlers of the order/payment flow -/

/-- Outcome of `POST /api/order/create`: the approval-link JSON, or the
generic HTTP 500 "Payment creation failed". -/
inductive CreateResponse where
  | approval (url : String)
  | paymentCreationFailed
deriving DecidableEq

/-- `create_order` (`POST /api/order/create`): price the cart server-side,
generate a time-derived order id, then attempt gateway session creation
(oracle `gateway`: the outcome of `paypal_service.create_payment`, either an
exception or the response JSON). Any exception in the `try` block — including
a response without an `approve` link — yields HTTP 500 and leaves the store
untouched; on success a `pending_payment`/unpaid order is appended and the
whole document saved. -/
def create_order (data : StoreData) (order_req : OrderRequest)
    (now : ℚ) (dateIso : String)
    (gateway : Except Unit PayPalOrderJson) : StoreData × CreateResponse :=
  let priced := priceCart data.products order_req.items
  let calculated_total := priced.1
  let full_items := priced.2
  let total_usd := calculated_total * OMR_TO_USD_RATE
  let order_id := genOrderId now
  match gateway with
  | Except.error _ => (data, CreateResponse.paymentCreationFailed)
  | Except.ok paypal_order =>
      match paypal_order.links.find? (fun link => link.rel == "approve") with
      | none => (data, CreateResponse.paymentCreationFailed)
      | some link =>
          let new_order : Order :=
            { id := order_id, date := dateIso,
              customer := order_req.customer, items := full_items,
              total_omr := calculated_total, total_usd := total_usd,
              status := "pending_payment", paid := false,
              paypal_order_id := paypal_order.id }
          ({ data with orders := data.orders ++ [new_order] },
           CreateResponse.approval link.href)

/-- The session-creation outcome as seen by `create_order`'s success path:
`some (session id, approval link)` exactly when the gateway call returned a
response carrying an `approve` link. -/
def sessionApproval (gateway : Except Unit PayPalOrderJson) :
    Option (String × String) :=
  match gateway with
  | Except.error _ => none
  | Except.ok po =>
      (po.links.find? (fun link => link.rel == "approve")).map
        (fun link => (po.id, link.href))

/-- Telegram channel configuration (`TELEGRAM_BOT_TOKEN`/`TELEGRAM_CHAT_ID`). -/
structure TelegramConfig where
  botToken : Option String
  chatId : Option String
deriving DecidableEq

/-- Observable outcome of `TelegramService.send_order`. -/
inductive NotifyStatus where
  | skipped
  | sent
  | deliveryFailed
deriving DecidableEq

/-- `TelegramService.send_order`: with missing credentials it logs a warning
and returns (silent no-op); otherwise it POSTs the rendered order summary,
catching and logging any delivery error (oracle `deliveryOk`). It never
raises. -/
def send_order (cfg : TelegramConfig) (order : Order) (deliveryOk : Bool) :
    NotifyStatus :=
  if optFalsy cfg.botToken || optFalsy cfg.chatId then
    NotifyStatus.skipped
  else if deliveryOk then NotifyStatus.sent
  else NotifyStatus.deliveryFailed

/-- Outcome of `GET /api/payment/success`: the three redirects the handler
can produce. -/
inductive SuccessResponse where
  | orderNotFoundRedirect
  | successRedirect (oid : String)
  | paymentFailedRedirect
deriving DecidableEq

/-- Full observable effect of one `payment_success` request. -/
structure FinalizeResult where
  newData : StoreData
  response : SuccessResponse
  captureAttempted : Bool
  notification : Option NotifyStatus
deriving DecidableEq

/-- `payment_success` (`GET /api/payment/success`): look the order up by id
(`next((i for i, o in enumerate(data["orders"]) if o["id"] == oid), None)`);
absent → not-found redirect with nothing attempted. Otherwise attempt capture
(oracle `captureOk`): on failure the exception is caught, nothing is saved
and the payment-failed redirect is returned; on success the order is marked
`confirmed`/paid, the document saved, the Telegram notification attempted
inside its own try/except, and the success redirect returned. -/
def payment_success (data : StoreData) (oid : String) (tcfg : TelegramConfig)
    (captureOk : Bool) (deliveryOk : Bool) : FinalizeResult :=
  match data.orders.enum.find? (fun io => io.2.id == oid) with
  | none =>
      { newData := data, response := SuccessResponse.orderNotFoundRedirect,
        captureAttempted := false, notification := none }
  | some (order_idx, order) =>
      if captureOk then
        let order2 := { order with status := "confirmed", paid := true }
        let data2 := { data with orders := data.orders.set order_idx order2 }
        { newData := data2, response := SuccessResponse.successRedirect oid,
          captureAttempted := true,
          notification := some (send_order tcfg order2 deliveryOk) }
      else
        { newData := data, response := SuccessResponse.paymentFailedRedirect,
          captureAttempted := true, notification := none }

/-- `GET /api/order/{oid}`: first stored order with the given id, or 404. -/
def get_order_detail (data : StoreData) (oid : String) : Option Order :=
  data.orders.find? (fun o => o.id == oid)

/-! ### Backup restore (`POST /api/admin/restore`) -/

/-- A parsed JSON document as `restore_backup` sees it: each of the three
top-level keys independently present or absent. -/
structure RawDoc where
  products : Option (List Product)
  categories : Option (List Category)
  orders : Option (List Order)
deriving DecidableEq

/-- Outcome of `POST /api/admin/restore`. -/
inductive RestoreResponse where
  | success
  | invalidBackupFile
deriving DecidableEq

/-- `restore_backup`: parse the upload (`none` models a `json.loads` failure);
accept and save the whole document when it has the keys
`"products" in json_content and "categories" in json_content`, otherwise
reject with HTTP 400 "Invalid backup file" and leave the stored file as is.
The `orders` key is never checked. -/
def restore_backup (stored : RawDoc) (upload : Option RawDoc) :
    RawDoc × RestoreResponse :=
  match upload with
  | none => (stored, RestoreResponse.invalidBackupFile)
  | some json_content =>
      if json_content.products.isSome && json_content.categories.isSome then
        (json_content, RestoreResponse.success)
      else
        (stored, RestoreResponse.invalidBackupFile)

/-! ### Concrete fixtures used by witnesses and counterexamples -/

/-- Localized name of the example product `P1`. -/
def p1Name : Translatable := { fa := "fa1", en := "P One", ar := "ar1" }

/-- The spec's example product: `P1`, price 10.0, discount 10%. -/
def p1 : Product :=
  { id := "P1", name := p1Name,
    description := { fa := "d", en := "d", ar := "d" },
    price := 10, discount := 10, category := "1", image := "img" }

/-- The spec's example cart `{P1: x2}`. -/
def exampleCart : List CartItem := [{ id := "P1", quantity := 2 }]

/-- A sample customer form. -/
def sampleCustomer : Customer :=
  { firstName := "Ada", lastName := "L", phone := "1", address := "A" }

/-- A second, distinct customer form. -/
def sampleCustomerB : Customer :=
  { firstName := "Bob", lastName := "M", phone := "2", address := "B" }

/-- A sample order-creation request from `sampleCustomer`. -/
def sampleReq : OrderRequest := { customer := sampleCustomer, items := exampleCart }

/-- A second order-creation request from `sampleCustomerB`. -/
def sampleReqB : OrderRequest := { customer := sampleCustomerB, items := exampleCart }

/-- A store document holding just the example product. -/
def sampleStore : StoreData := { products := [p1], categories := [], orders := [] }

/-- A successful gateway response carrying an `approve` link. -/
def gwOk : Except Unit PayPalOrderJson :=
  Except.ok { id := "PPID", links := [{ href := "https://pp/approve", rel := "approve" }] }

/-- A pending order (as `create_order` would persist it) used in finalize tests. -/
def pendingOrder : Order :=
  { id := "1000", date := "d", customer := sampleCustomer, items := [],
    total_omr := 0, total_usd := 0, status := "pending_payment", paid := false,
    paypal_order_id := "PPID" }

/-- A store document holding one pending order. -/
def storeWithOrder : StoreData :=
  { products := [p1], categories := [], orders := [pendingOrder] }

/-! ### Pricing lemmas -/

/-- Each pricing-loop step adds exactly the claimed per-line amount to the
running total. -/
lemma priceStep_fst (products : List Product) (acc : ℚ × List OrderItem)
    (item : CartItem) :
    (priceStep products acc item).1 = acc.1 + lineTotal products item := by
  unfold priceStep lineTotal
  cases h : findProduct products item.id with
  | none => simp
  | some p => simp [finalPrice]

/-- The pricing fold accumulates the sum of per-line amounts. -/
lemma foldl_priceStep_fst (products : List Product) (items : List CartItem) :
    ∀ acc : ℚ × List OrderItem,
      (items.foldl (priceStep products) acc).1 =
        acc.1 + (items.map (lineTotal products)).sum := by
  induction items with
  | nil => intro acc; simp
  | cons it its ih =>
      intro acc
      rw [List.foldl_cons, List.map_cons, List.sum_cons, ih, priceStep_fst,
        add_assoc]

/-- Unresolvable cart lines leave the pricing accumulator untouched, so the
fold over a cart equals the fold over its resolvable sub-cart. -/
lemma foldl_priceStep_filter (products : List Product) (items : List CartItem) :
    ∀ acc : ℚ × List OrderItem,
      items.foldl (priceStep products) acc =
        (items.filter
            (fun it => (findProduct products it.id).isSome)).foldl
          (priceStep products) acc := by
  induction items with
  | nil => intro acc; rfl
  | cons it its ih =>
      intro acc
      by_cases h : (findProduct products it.id).isSome
      · rw [List.foldl_cons, List.filter_cons]
        simp only [h, if_true]
        rw [List.foldl_cons, ih]
      · have hstep : priceStep products acc it = acc := by
          unfold priceStep
          cases hf : findProduct products it.id with
          | none => rfl
          | some p => rw [hf] at h; simp at h
        rw [List.foldl_cons, hstep, List.filter_cons]
        simp only [h, if_false]
        exact ih acc

/-- C2. For every cart whose product ids all resolve in the catalog, the
base-currency total computed by the pricing loop equals the sum over items of
`catalog_price × (1 − discount/100) × quantity`, and the settlement total is
that base total times the fixed rate 2.6; in particular on the catalog
`[P1 priced 10 at 10% discount]` and cart `{P1: x2}` the line unit price is
9.0, the base total 18.0, and the settlement total 46.8. -/
theorem c2_pricing_totals (products : List Product) (items : List CartItem)
    (hresolve : ∀ it ∈ items, (findProduct products it.id).isSome) :
    (priceCart products items).1 = (items.map (lineTotal products)).sum ∧
    (priceCart products items).1 * OMR_TO_USD_RATE =
      (items.map (lineTotal products)).sum * (26 / 10) ∧
    priceCart [p1] exampleCart =
      (18, [{ id := "P1", name := p1Name, price := 9, quantity := 2 }]) ∧
    (18 : ℚ) * OMR_TO_USD_RATE = 234 / 5 := by
  have hsum : (priceCart products items).1 = (items.map (lineTotal products)).sum := by
    unfold priceCart
    rw [foldl_priceStep_fst]
    simp
  refine ⟨hsum, by rw [hsum]; rfl, ?_, by norm_num [OMR_TO_USD_RATE]⟩
  show priceCart [p1] exampleCart = _
  unfold priceCart exampleCart
  simp only [List.foldl_cons, List.foldl_nil, priceStep, findProduct, p1,
    finalPrice, List.find?, p1Name]
  norm_num

/-- Witness for C2 at the spec's example catalog and cart. -/
theorem c2_pricing_totals_witness :
    (priceCart [p1] exampleCart).1 =
      (exampleCart.map (lineTotal [p1])).sum ∧
    (priceCart [p1] exampleCart).1 * OMR_TO_USD_RATE =
      (exampleCart.map (lineTotal [p1])).sum * (26 / 10) ∧
    priceCart [p1] exampleCart =
      (18, [{ id := "P1", name := p1Name, price := 9, quantity := 2 }]) ∧
    (18 : ℚ) * OMR_TO_USD_RATE = 234 / 5 :=
  c2_pricing_totals [p1] exampleCart (by decide)

/-- C7. Cart items whose product id does not resolve in the catalog are
silently omitted: pricing a cart equals pricing its resolvable sub-cart, and
a cart with zero resolvable items produces the zero total and empty item
list rather than an error. -/
theorem c7_unknown_ids_omitted (products : List Product) (items : List CartItem) :
    priceCart products items =
      priceCart products
        (items.filter (fun it => (findProduct products it.id).isSome)) ∧
    ((∀ it ∈ items, findProduct products it.id = none) →
      priceCart products items = (0, [])) := by
  constructor
  · unfold priceCart
    exact foldl_priceStep_filter products items (0, [])
  · intro hnone
    unfold priceCart
    rw [foldl_priceStep_filter products items (0, [])]
    have hfilter :
        items.filter (fun it => (findProduct products it.id).isSome) = [] := by
      rw [List.filter_eq_nil_iff]
      intro it hit
      rw [hnone it hit]
      simp
    rw [hfilter]
    rfl

/-- Witness for C7: a cart mixing the known id `P1` with an unknown id prices
exactly like the `P1`-only sub-cart, and an all-unknown cart prices to zero. -/
theorem c7_unknown_ids_omitted_witness :
    (priceCart [p1] [{ id := "P1", quantity := 2 }, { id := "ZZZ", quantity := 5 }] =
      priceCart [p1]
        (List.filter (fun it => (findProduct [p1] it.id).isSome)
          [{ id := "P1", quantity := 2 }, { id := "ZZZ", quantity := 5 }])) ∧
    priceCart [p1] [{ id := "ZZZ", quantity := 5 }] = (0, []) :=
  ⟨(c7_unknown_ids_omitted [p1]
      [{ id := "P1", quantity := 2 }, { id := "ZZZ", quantity := 5 }]).1,
   (c7_unknown_ids_omitted [p1] [{ id := "ZZZ", quantity := 5 }]).2 (by decide)⟩

/-! ### `create_order` case analysis -/

/-- When the gateway outcome carries no approval (an exception, or a response
without an `approve` link), `create_order` returns the generic failure and
the store document is exactly the input one. -/
lemma create_order_fail (data : StoreData) (req : OrderRequest) (now : ℚ)
    (dateIso : String) (gw : Except Unit PayPalOrderJson)
    (h : sessionApproval gw = none) :
    create_order data req now dateIso gw =
      (data, CreateResponse.paymentCreationFailed) := by
  unfold create_order
  unfold sessionApproval at h
  cases gw with
  | error e => rfl
  | ok po =>
      dsimp only at h ⊢
      cases hf : po.links.find? (fun link => link.rel == "approve") with
      | none => rfl
      | some link => rw [hf] at h; simp at h

/-- When the gateway outcome carries an approval link, `create_order` appends
exactly one new pending order (priced from the catalog) and returns that
link. -/
lemma create_order_ok (data : StoreData) (req : OrderRequest) (now : ℚ)
    (dateIso : String) (gw : Except Unit PayPalOrderJson) (ppid url : String)
    (h : sessionApproval gw = some (ppid, url)) :
    create_order data req now dateIso gw =
      ({ data with
          orders := data.orders ++
            [{ id := genOrderId now, date := dateIso,
               customer := req.customer,
               items := (priceCart data.products req.items).2,
               total_omr := (priceCart data.products req.items).1,
               total_usd := (priceCart data.products req.items).1 * OMR_TO_USD_RATE,
               status := "pending_payment", paid := false,
               paypal_order_id := ppid }] },
       CreateResponse.approval url) := by
  unfold create_order
  unfold sessionApproval at h
  cases gw with
  | error e => simp at h
  | ok po =>
      dsimp only at h ⊢
      cases hf : po.links.find? (fun link => link.rel == "approve") with
      | none => rw [hf] at h; simp at h
      | some link =>
          rw [hf] at h
          simp at h
          obtain ⟨h1, h2⟩ := h
          subst h1
          subst h2
          rfl

/-- C1. Order creation is atomic with respect to gateway session creation:
the store gains a `pending_payment`/unpaid order (with products and
categories untouched) if and only if the gateway session creation succeeded
with an approval link; on session-creation failure the stored document is
returned unchanged and the caller gets the generic failure response. -/
theorem c1_create_order_atomic (data : StoreData) (req : OrderRequest)
    (now : ℚ) (dateIso : String) (gw : Except Unit PayPalOrderJson) :
    (sessionApproval gw = none →
      create_order data req now dateIso gw =
        (data, CreateResponse.paymentCreationFailed)) ∧
    (∀ ppid url, sessionApproval gw = some (ppid, url) →
      ∃ o : Order,
        (create_order data req now dateIso gw).1.orders = data.orders ++ [o] ∧
        o.status = "pending_payment" ∧ o.paid = false ∧
        (create_order data req now dateIso gw).1.products = data.products ∧
        (create_order data req now dateIso gw).1.categories = data.categories ∧
        (create_order data req now dateIso gw).2 = CreateResponse.approval url) ∧
    ((create_order data req now dateIso gw).1 ≠ data →
      (sessionApproval gw).isSome) := by
  refine ⟨fun h => create_order_fail data req now dateIso gw h, ?_, ?_⟩
  · intro ppid url h
    rw [create_order_ok data req now dateIso gw ppid url h]
    exact ⟨_, rfl, rfl, rfl, rfl, rfl, rfl⟩
  · intro hne
    cases hs : sessionApproval gw with
    | some v => rfl
    | none =>
        exfalso
        apply hne
        rw [create_order_fail data req now dateIso gw hs]

/-- Witness for C1: a failed gateway call against the sample store persists
nothing and reports the generic failure, while the successful `gwOk` call
appends exactly one pending, unpaid order. -/
theorem c1_create_order_atomic_witness :
    create_order sampleStore sampleReq 1 "2024-01-01" (Except.error ()) =
      (sampleStore, CreateResponse.paymentCreationFailed) ∧
    ∃ o : Order,
      (create_order sampleStore sampleReq 1 "2024-01-01" gwOk).1.orders =
        sampleStore.orders ++ [o] ∧
      o.status = "pending_payment" ∧ o.paid = false ∧
      (create_order sampleStore sampleReq 1 "2024-01-01" gwOk).1.products =
        sampleStore.products ∧
      (create_order sampleStore sampleReq 1 "2024-01-01" gwOk).1.categories =
        sampleStore.categories ∧
      (create_order sampleStore sampleReq 1 "2024-01-01" gwOk).2 =
        CreateResponse.approval "https://pp/approve" :=
  ⟨(c1_create_order_atomic sampleStore sampleReq 1 "2024-01-01"
      (Except.error ())).1 rfl,
   (c1_create_order_atomic sampleStore sampleReq 1 "2024-01-01" gwOk).2.1
      "PPID" "https://pp/approve" rfl⟩

/-! ### `payment_success` theorems -/

/-- The enumerated lookup in `payment_success` finds nothing when no stored
order has the requested id (index-shifted form). -/
lemma enumFrom_find_id_none (oid : String) :
    ∀ (l : List Order) (n : ℕ), (∀ o ∈ l, (o.id == oid) = false) →
      ((l.enumFrom n).find? (fun io => io.2.id == oid)) = none := by
  intro l
  induction l with
  | nil => intro n h; rfl
  | cons a l ih =>
      intro n h
      have ha := h a (List.mem_cons_self a l)
      simp only [List.enumFrom, List.find?, ha]
      exact ih (n + 1) (fun o ho => h o (List.mem_cons_of_mem a ho))

/-- The enumerated lookup in `payment_success` finds nothing when no stored
order has the requested id. -/
lemma enum_find_id_none (oid : String) (l : List Order)
    (h : ∀ o ∈ l, (o.id == oid) = false) :
    (l.enum.find? (fun io => io.2.id == oid)) = none :=
  enumFrom_find_id_none oid l 0 h

/-- C3. Finalizing an existing order when the gateway capture fails leaves
the whole store document unchanged (so the order keeps whatever status and
paid flag it had, `pending_payment`/false for an order created by
`create_order`), returns the generic payment-failed redirect, performs the
single capture attempt (no retry), and sends no notification (no
cancellation happens). -/
theorem c3_capture_failure_leaves_order (data : StoreData) (oid : String)
    (i : ℕ) (order : Order) (tcfg : TelegramConfig) (deliveryOk : Bool)
    (h : data.orders.enum.find? (fun io => io.2.id == oid) = some (i, order)) :
    payment_success data oid tcfg false deliveryOk =
      { newData := data, response := SuccessResponse.paymentFailedRedirect,
        captureAttempted := true, notification := none } := by
  unfold payment_success
  rw [h]
  rfl

/-- Witness for C3 on the sample store holding one pending order. -/
theorem c3_capture_failure_leaves_order_witness :
    payment_success storeWithOrder "1000" { botToken := none, chatId := none }
        false true =
      { newData := storeWithOrder,
        response := SuccessResponse.paymentFailedRedirect,
        captureAttempted := true, notification := none } :=
  c3_capture_failure_leaves_order storeWithOrder "1000" 0 pendingOrder
    { botToken := none, chatId := none } true rfl

/-- C4. Finalizing an existing order when the gateway capture succeeds
replaces it in the persisted store by the same order in status `confirmed`
with `paid = true`, returns the success redirect, and invokes the
Notification Sender on the confirmed order. -/
theorem c4_capture_success_confirms (data : StoreData) (oid : String)
    (i : ℕ) (order : Order) (tcfg : TelegramConfig) (deliveryOk : Bool)
    (h : data.orders.enum.find? (fun io => io.2.id == oid) = some (i, order)) :
    payment_success data oid tcfg true deliveryOk =
      { newData :=
          { data with
              orders := data.orders.set i
                { order with status := "confirmed", paid := true } },
        response := SuccessResponse.successRedirect oid,
        captureAttempted := true,
        notification :=
          some (send_order tcfg
            { order with status := "confirmed", paid := true } deliveryOk) } := by
  unfold payment_success
  rw [h]
  rfl

/-- Witness for C4 on the sample store holding one pending order. -/
theorem c4_capture_success_confirms_witness :
    payment_success storeWithOrder "1000" { botToken := none, chatId := none }
        true true =
      { newData :=
          { storeWithOrder with
              orders := storeWithOrder.orders.set 0
                { pendingOrder with status := "confirmed", paid := true } },
        response := SuccessResponse.successRedirect "1000",
        captureAttempted := true,
        notification :=
          some (send_order { botToken := none, chatId := none }
            { pendingOrder with status := "confirmed", paid := true } true) } :=
  c4_capture_success_confirms storeWithOrder "1000" 0 pendingOrder
    { botToken := none, chatId := none } true rfl

/-- C8. Finalizing with an order id matching no stored order returns the
not-found redirect, leaves the store document unchanged, attempts no capture,
and sends no notification — for every capture-oracle outcome. -/
theorem c8_not_found_no_mutation (data : StoreData) (oid : String)
    (tcfg : TelegramConfig) (captureOk deliveryOk : Bool)
    (h : ∀ o ∈ data.orders, (o.id == oid) = false) :
    payment_success data oid tcfg captureOk deliveryOk =
      { newData := data, response := SuccessResponse.orderNotFoundRedirect,
        captureAttempted := false, notification := none } := by
  unfold payment_success
  rw [enum_find_id_none oid data.orders h]

/-- Witness for C8: finalizing the unknown id `nope` against the sample
store. -/
theorem c8_not_found_no_mutation_witness :
    payment_success storeWithOrder "nope" { botToken := none, chatId := none }
        true true =
      { newData := storeWithOrder,
        response := SuccessResponse.orderNotFoundRedirect,
        captureAttempted := false, notification := none } :=
  c8_not_found_no_mutation storeWithOrder "nope"
    { botToken := none, chatId := none } true true (by decide)

/-- C9. Notification delivery is best-effort: for every Telegram
configuration and delivery outcome, a finalize whose capture succeeded still
returns the success redirect and still persists the confirmed, paid order;
an unconfigured channel merely records the silent no-op. -/
theorem c9_notification_never_changes_outcome (data : StoreData)
    (oid : String) (i : ℕ) (order : Order)
    (h : data.orders.enum.find? (fun io => io.2.id == oid) = some (i, order))
    (tcfg : TelegramConfig) (deliveryOk : Bool) :
    (payment_success data oid tcfg true deliveryOk).response =
      SuccessResponse.successRedirect oid ∧
    (payment_success data oid tcfg true deliveryOk).newData =
      { data with
          orders := data.orders.set i
            { order with status := "confirmed", paid := true } } ∧
    ((optFalsy tcfg.botToken || optFalsy tcfg.chatId) = true →
      (payment_success data oid tcfg true deliveryOk).notification =
        some NotifyStatus.skipped) := by
  unfold payment_success
  rw [h]
  refine ⟨rfl, rfl, fun hb => ?_⟩
  simp [send_order, hb]

/-- Witness for C9: a failed delivery attempt over an unconfigured channel
still yields the success redirect and the confirmed persisted order. -/
theorem c9_notification_never_changes_outcome_witness :
    (payment_success storeWithOrder "1000" { botToken := none, chatId := none }
        true false).response = SuccessResponse.successRedirect "1000" ∧
    (payment_success storeWithOrder "1000" { botToken := none, chatId := none }
        true false).newData =
      { storeWithOrder with
          orders := storeWithOrder.orders.set 0
            { pendingOrder with status := "confirmed", paid := true } } ∧
    (payment_success storeWithOrder "1000" { botToken := none, chatId := none }
        true false).notification = some NotifyStatus.skipped :=
  ⟨(c9_notification_never_changes_outcome storeWithOrder "1000" 0 pendingOrder
      rfl { botToken := none, chatId := none } false).1,
   (c9_notification_never_changes_outcome storeWithOrder "1000" 0 pendingOrder
      rfl { botToken := none, chatId := none } false).2.1,
   (c9_notification_never_changes_outcome storeWithOrder "1000" 0 pendingOrder
      rfl { botToken := none, chatId := none } false).2.2 rfl⟩

/-! ### Backup restore (C5) and gateway authentication (C6) -/

/-- A stored document for the restore scenarios. -/
def storedDoc : RawDoc :=
  { products := some [p1], categories := some [], orders := some [pendingOrder] }

/-- An uploaded backup document that has `products` and `categories` but is
missing the `orders` key. -/
def noOrdersDoc : RawDoc :=
  { products := some [], categories := some [], orders := none }

/-- C5 counterexample. Restoring from a document missing only the `orders`
key is NOT rejected: `restore_backup` accepts it and replaces the stored
document with it, because the handler only checks the `products` and
`categories` keys. -/
theorem c5_missing_orders_accepted_cex :
    restore_backup storedDoc (some noOrdersDoc) =
      (noOrdersDoc, RestoreResponse.success) ∧
    noOrdersDoc.orders = none ∧
    storedDoc ≠ noOrdersDoc :=
  ⟨rfl, rfl, by simp [storedDoc, noOrdersDoc]⟩

/-- C5 amended. A restore upload is rejected with the validation error — and
the stored document left untouched — exactly when it fails to parse or lacks
the `products` or `categories` key; the `orders` key is not checked, so a
document carrying `products` and `categories` is accepted and replaces the
whole stored document even without `orders`. -/
theorem c5_restore_validation_amended (stored doc : RawDoc) :
    (restore_backup stored none = (stored, RestoreResponse.invalidBackupFile)) ∧
    ((doc.products = none ∨ doc.categories = none) →
      restore_backup stored (some doc) =
        (stored, RestoreResponse.invalidBackupFile)) ∧
    (doc.products.isSome → doc.categories.isSome →
      restore_backup stored (some doc) = (doc, RestoreResponse.success)) ∧
    ((restore_backup stored (some doc)).2 = RestoreResponse.success ↔
      doc.products.isSome ∧ doc.categories.isSome) := by
  refine ⟨rfl, ?_, ?_, ?_⟩
  · rintro (h | h) <;> simp [restore_backup, h]
  · intro hp hc
    simp [restore_backup, hp, hc]
  · unfold restore_backup
    by_cases hp : doc.products.isSome <;> by_cases hc : doc.categories.isSome <;>
      simp [hp, hc]

/-- Witness for the amended C5: rejection (store untouched) for a document
missing `products`, acceptance for one missing only `orders`. -/
theorem c5_restore_validation_amended_witness :
    restore_backup storedDoc
        (some { products := none, categories := some [], orders := some [] }) =
      (storedDoc, RestoreResponse.invalidBackupFile) ∧
    restore_backup storedDoc (some noOrdersDoc) =
      (noOrdersDoc, RestoreResponse.success) :=
  ⟨(c5_restore_validation_amended storedDoc
      { products := none, categories := some [], orders := some [] }).2.1
      (Or.inl rfl),
   (c5_restore_validation_amended storedDoc noOrdersDoc).2.2.1 rfl rfl⟩

/-- C6 counterexample. With unconfigured credentials the authenticate
operation does NOT propagate an error: it returns a `None` token, and
session creation silently continues, calling the provider with the header
`Authorization: Bearer None`. -/
theorem c6_unconfigured_no_error_cex :
    get_access_token { clientId := none, secret := none } (Except.ok "tok") =
      Except.ok none ∧
    get_access_token { clientId := none, secret := none } (Except.ok "tok") ≠
      Except.error () ∧
    create_payment { clientId := none, secret := none } (Except.ok "tok")
        (fun hd => if hd.authorization == "Bearer None"
           then Except.ok { id := "PP1", links := [] } else Except.error ()) =
      Except.ok { id := "PP1", links := [] } :=
  ⟨rfl, by simp [get_access_token, optFalsy], rfl⟩

/-- C6 amended. Authenticate propagates a provider rejection only when both
credentials are configured and non-empty; with an unconfigured (or empty)
client id or secret it instead returns a null credential without error, and
session creation proceeds to call the provider with the literal header
`Bearer None`, failing only if the provider rejects that request. -/
theorem c6_auth_failure_amended (cfg : PayPalConfig)
    (providerToken : Except Unit String) :
    get_access_token cfg providerToken =
      (if optFalsy cfg.clientId || optFalsy cfg.secret then Except.ok none
       else providerToken.map some) ∧
    ∀ providerOrders : HttpHeaders → Except Unit PayPalOrderJson,
      create_payment cfg providerToken providerOrders =
        (if optFalsy cfg.clientId || optFalsy cfg.secret then
           providerOrders (authHeaders none)
         else
           match providerToken with
           | Except.error e => Except.error e
           | Except.ok tok => providerOrders (authHeaders (some tok))) := by
  constructor
  · unfold get_access_token
    by_cases hb : optFalsy cfg.clientId || optFalsy cfg.secret
    · simp [hb]
    · simp only [hb]
      cases providerToken <;> rfl
  · intro providerOrders
    unfold create_payment get_access_token
    by_cases hb : optFalsy cfg.clientId || optFalsy cfg.secret
    · simp [hb]
    · simp only [hb]
      cases providerToken <;> rfl

/-! ### Decimal representation facts for order-id uniqueness (C10) -/

/-- The digit list printed for `n`: the base-10 digits, with `0` printed as
the single digit `0`. -/
def padDigits (n : ℕ) : List ℕ :=
  if n = 0 then [0] else Nat.digits 10 n

/-- `padDigits` is undone by `Nat.ofDigits`. -/
lemma ofDigits_padDigits (n : ℕ) : Nat.ofDigits 10 (padDigits n) = n := by
  rcases eq_or_ne n 0 with h | h
  · subst h
    simp [padDigits, Nat.ofDigits]
  · unfold padDigits
    rw [if_neg h]
    exact Nat.ofDigits_digits 10 n

/-- Every printed digit is below the base. -/
lemma padDigits_lt (n : ℕ) : ∀ d ∈ padDigits n, d < 10 := by
  intro d hd
  unfold padDigits at hd
  rcases eq_or_ne n 0 with h | h
  · rw [if_pos h] at hd
    simp at hd
    omega
  · rw [if_neg h] at hd
    exact Nat.digits_lt_base (by norm_num) hd

/-- `Nat.digitChar` is injective below 10. -/
lemma digitChar_inj_lt : ∀ a < 10, ∀ b < 10,
    Nat.digitChar a = Nat.digitChar b → a = b := by decide

/-- Mapping `Nat.digitChar` over digit lists below 10 is injective. -/
lemma map_digitChar_inj : ∀ (l1 l2 : List ℕ), (∀ d ∈ l1, d < 10) →
    (∀ d ∈ l2, d < 10) →
    l1.map Nat.digitChar = l2.map Nat.digitChar → l1 = l2 := by
  intro l1
  induction l1 with
  | nil =>
      intro l2 _ _ h
      cases l2 with
      | nil => rfl
      | cons b t => simp at h
  | cons a t ih =>
      intro l2 h1 h2 h
      cases l2 with
      | nil => simp at h
      | cons b t2 =>
          simp only [List.map_cons, List.cons.injEq] at h
          obtain ⟨hab, ht⟩ := h
          have ha := h1 a (List.mem_cons_self a t)
          have hb := h2 b (List.mem_cons_self b t2)
          have : a = b := digitChar_inj_lt a ha b hb hab
          subst this
          rw [ih t2 (fun d hd => h1 d (List.mem_cons_of_mem a hd))
            (fun d hd => h2 d (List.mem_cons_of_mem a hd)) ht]

/-- Core's fuelled digit printer agrees with `Nat.digits` for positive
inputs. -/
lemma toDigitsCore_eq_digits :
    ∀ (fuel n : ℕ) (ds : List Char), 0 < n → n < 10 ^ fuel →
      Nat.toDigitsCore 10 fuel n ds =
        ((Nat.digits 10 n).map Nat.digitChar).reverse ++ ds := by
  intro fuel
  induction fuel with
  | zero =>
      intro n ds hn hlt
      simp at hlt
      omega
  | succ fuel ih =>
      intro n ds hn hlt
      unfold Nat.toDigitsCore
      dsimp only
      by_cases hdiv : n / 10 = 0
      · have hnlt : n < 10 := by omega
        rw [if_pos hdiv]
        rw [Nat.digits_def' (by norm_num : (1:ℕ) < 10) hn, hdiv,
          Nat.digits_zero, Nat.mod_eq_of_lt hnlt]
        rfl
      · rw [if_neg hdiv]
        have hpos : 0 < n / 10 := Nat.pos_of_ne_zero hdiv
        have hlt2 : n / 10 < 10 ^ fuel := by
          rw [pow_succ, mul_comm] at hlt
          exact Nat.div_lt_of_lt_mul hlt
        rw [ih (n / 10) (Nat.digitChar (n % 10) :: ds) hpos hlt2]
        rw [Nat.digits_def' (by norm_num : (1:ℕ) < 10) hn]
        simp [List.reverse_cons, List.append_assoc]

/-- Core's digit printer, with its default fuel, prints the padded digit
list most-significant first. -/
lemma toDigits_eq_pad (n : ℕ) :
    Nat.toDigits 10 n = ((padDigits n).map Nat.digitChar).reverse := by
  rcases eq_or_ne n 0 with h | h
  · subst h
    rfl
  · have hn : 0 < n := Nat.pos_of_ne_zero h
    have hlt : n < 10 ^ (n + 1) :=
      lt_of_lt_of_le (Nat.lt_pow_self (by norm_num) n)
        (Nat.pow_le_pow_right (by norm_num) (Nat.le_succ n))
    unfold Nat.toDigits
    rw [toDigitsCore_eq_digits (n + 1) n [] hn hlt]
    unfold padDigits
    rw [if_neg h]
    simp

/-- The decimal printer `Nat.repr` is injective. -/
lemma Nat_repr_inj {m n : ℕ} (h : Nat.repr m = Nat.repr n) : m = n := by
  have hdata : Nat.toDigits 10 m = Nat.toDigits 10 n := by
    have hcongr := congrArg String.data h
    simpa [Nat.repr, List.asString] using hcongr
  rw [toDigits_eq_pad, toDigits_eq_pad] at hdata
  have hmap : (padDigits m).map Nat.digitChar = (padDigits n).map Nat.digitChar :=
    List.reverse_injective hdata
  have hpad : padDigits m = padDigits n :=
    map_digitChar_inj _ _ (padDigits_lt m) (padDigits_lt n) hmap
  have hof := congrArg (Nat.ofDigits 10) hpad
  rw [ofDigits_padDigits, ofDigits_padDigits] at hof
  exact hof

/-- Decimal printing of nonnegative integers is injective. -/
lemma Int_toString_inj_nonneg {i j : ℤ} (hi : 0 ≤ i) (hj : 0 ≤ j)
    (h : toString i = toString j) : i = j := by
  obtain ⟨m, rfl⟩ := Int.eq_ofNat_of_zero_le hi
  obtain ⟨n, rfl⟩ := Int.eq_ofNat_of_zero_le hj
  have hrepr : Nat.repr m = Nat.repr n := h
  exact congrArg Int.ofNat (Nat_repr_inj hrepr)

/-- The id generated for a creation time of 1.0001 seconds. -/
lemma genOrderId_first : genOrderId (10001 / 10000) = "1000" := by
  unfold genOrderId
  have hf : pyInt ((10001 / 10000 : ℚ) * 1000) = 1000 := by
    unfold pyInt
    rw [if_pos (by norm_num)]
    rw [Int.floor_eq_iff]
    norm_num
  rw [hf]
  rfl

/-- The id generated for the distinct creation time 1.0002 seconds is the
same string. -/
lemma genOrderId_second : genOrderId (10002 / 10000) = "1000" := by
  unfold genOrderId
  have hf : pyInt ((10002 / 10000 : ℚ) * 1000) = 1000 := by
    unfold pyInt
    rw [if_pos (by norm_num)]
    rw [Int.floor_eq_iff]
    norm_num
  rw [hf]
  rfl

/-- C10 counterexample. Two order creations at the distinct instants
1.0001s and 1.0002s (same millisecond) against the sample store persist two
distinct orders — their dates and customers differ — that share the id
`1000`, and lookup by that id can only ever return the first of them. -/
theorem c10_duplicate_ids_cex :
    ((create_order ((create_order sampleStore sampleReq (10001 / 10000) "d1"
          gwOk).1) sampleReqB (10002 / 10000) "d2" gwOk).1.orders.map
        Order.id = ["1000", "1000"]) ∧
    ((create_order ((create_order sampleStore sampleReq (10001 / 10000) "d1"
          gwOk).1) sampleReqB (10002 / 10000) "d2" gwOk).1.orders.map
        Order.date = ["d1", "d2"]) ∧
    (10001 / 10000 : ℚ) ≠ 10002 / 10000 ∧
    get_order_detail (create_order ((create_order sampleStore sampleReq
          (10001 / 10000) "d1" gwOk).1) sampleReqB (10002 / 10000) "d2"
        gwOk).1 "1000" =
      (create_order ((create_order sampleStore sampleReq (10001 / 10000) "d1"
          gwOk).1) sampleReqB (10002 / 10000) "d2" gwOk).1.orders.head? := by
  have happ : sessionApproval gwOk = some ("PPID", "https://pp/approve") := rfl
  rw [create_order_ok sampleStore sampleReq (10001 / 10000) "d1" gwOk
    "PPID" "https://pp/approve" happ]
  rw [create_order_ok _ sampleReqB (10002 / 10000) "d2" gwOk
    "PPID" "https://pp/approve" happ]
  refine ⟨?_, ?_, by norm_num, ?_⟩
  · simp [sampleStore, genOrderId_first, genOrderId_second]
  · simp [sampleStore]
  · simp [get_order_detail, sampleStore, genOrderId_first, genOrderId_second]

/-- C10 amended. Order ids are the creation timestamp truncated to whole
milliseconds, printed in decimal: two orders created in the same millisecond
share an id (ids are NOT unique in general), while orders created at
nonnegative timestamps falling in different milliseconds always receive
distinct ids. -/
theorem c10_order_ids_millisecond_granularity (t1 t2 : ℚ)
    (h1 : 0 ≤ t1) (h2 : 0 ≤ t2) :
    (pyInt (t1 * 1000) = pyInt (t2 * 1000) → genOrderId t1 = genOrderId t2) ∧
    (pyInt (t1 * 1000) ≠ pyInt (t2 * 1000) → genOrderId t1 ≠ genOrderId t2) := by
  constructor
  · intro h
    unfold genOrderId
    rw [h]
  · intro h hc
    apply h
    unfold genOrderId at hc
    have hq1 : (0 : ℚ) ≤ t1 * 1000 := mul_nonneg h1 (by norm_num)
    have hq2 : (0 : ℚ) ≤ t2 * 1000 := mul_nonneg h2 (by norm_num)
    have hnn1 : (0 : ℤ) ≤ pyInt (t1 * 1000) := by
      unfold pyInt
      rw [if_pos hq1]
      exact Int.floor_nonneg.mpr hq1
    have hnn2 : (0 : ℤ) ≤ pyInt (t2 * 1000) := by
      unfold pyInt
      rw [if_pos hq2]
      exact Int.floor_nonneg.mpr hq2
    exact Int_toString_inj_nonneg hnn1 hnn2 hc

/-- Witness for the amended C10: creation times 0s and 1s fall in different
milliseconds, so the generated ids differ. -/
theorem c10_order_ids_millisecond_granularity_witness :
    genOrderId 0 ≠ genOrderId 1 :=
  (c10_order_ids_millisecond_granularity 0 1 le_rfl (by norm_num)).2
    (by norm_num [pyInt, Int.floor_eq_iff])

end RoyalRestaurant
